import Mathlib

/-!
Verification development for two Mesa source files:
  - src/gallium/drivers/vc4/vc4_blit.c      (blit dispatcher of the vc4 driver)
  - src/mesa/state_tracker/st_atom_texture.c (sampler-view cache of the state tracker)

The C code is shallowly embedded: pure helpers become Lean functions,
stateful code becomes explicit state passing on record types, machine
unsigned arithmetic is `Nat` with explicit reduction modulo 2^32 where
wrap-around can occur.  External collaborators (format-description
service, GPU submission, the generic blitter) are modelled as explicit
parameters or counters, as the spec describes them.
-/

/-! ## Swizzle encoding (program/prog_instruction.h)

A swizzle is packed into an unsigned integer, three bits per component:
`GET_SWZ(swz, idx) = (swz >> (idx*3)) & 0x7` and
`MAKE_SWIZZLE4(a,b,c,d) = a | (b<<3) | (c<<6) | (d<<9)`.
Component codes: X=0, Y=1, Z=2, W=3, ZERO=4, ONE=5. -/

set_option maxRecDepth 8192

def GET_SWZ (swz idx : Nat) : Nat := (swz >>> (idx * 3)) &&& 7

def MAKE_SWIZZLE4 (a b c d : Nat) : Nat :=
  a ||| (b <<< 3) ||| (c <<< 6) ||| (d <<< 9)

def SWIZZLE_X : Nat := 0
def SWIZZLE_Y : Nat := 1
def SWIZZLE_Z : Nat := 2
def SWIZZLE_W : Nat := 3
def SWIZZLE_ZERO : Nat := 4
def SWIZZLE_ONE : Nat := 5
def SWIZZLE_XYZW : Nat := MAKE_SWIZZLE4 SWIZZLE_X SWIZZLE_Y SWIZZLE_Z SWIZZLE_W
def SWIZZLE_XXXX : Nat := MAKE_SWIZZLE4 SWIZZLE_X SWIZZLE_X SWIZZLE_X SWIZZLE_X

/-- One iteration of the loop body of `swizzle_swizzle` in
st_atom_texture.c: given the outer swizzle's component `s`, produce the
resulting component by looking it up in `swizzle2` when `s` names a live
channel, passing constants through, and (after the `assert`) defaulting
to `SWIZZLE_X` on a bad term. -/
def swizzle_step (s swizzle2 : Nat) : Nat :=
  match s with
  | 0 => GET_SWZ swizzle2 0
  | 1 => GET_SWZ swizzle2 1
  | 2 => GET_SWZ swizzle2 2
  | 3 => GET_SWZ swizzle2 3
  | 4 => SWIZZLE_ZERO
  | 5 => SWIZZLE_ONE
  | _ => SWIZZLE_X

/-- `swizzle_swizzle(swizzle1, swizzle2)` from st_atom_texture.c: returns
`swizzle1(swizzle2)`, the loop over the four components unrolled. -/
def swizzle_swizzle (swizzle1 swizzle2 : Nat) : Nat :=
  MAKE_SWIZZLE4
    (swizzle_step (GET_SWZ swizzle1 0) swizzle2)
    (swizzle_step (GET_SWZ swizzle1 1) swizzle2)
    (swizzle_step (GET_SWZ swizzle1 2) swizzle2)
    (swizzle_step (GET_SWZ swizzle1 3) swizzle2)

/-- A packed swizzle is well formed when it fits in twelve bits and each
of its four components is one of the six legal terms X, Y, Z, W, ZERO,
ONE (i.e. at most `SWIZZLE_ONE = 5`). The user swizzles stored in
`gl_texture_object::_Swizzle` and every swizzle built by
`compute_texture_format_swizzle` are of this shape. -/
def swizzle_ok (u : Nat) : Prop := u < 4096 ∧ ∀ i < 4, GET_SWZ u i ≤ 5

instance (u : Nat) : Decidable (swizzle_ok u) := by
  unfold swizzle_ok; infer_instance

theorem lor_shiftLeft_disjoint (a b k : Nat) (h : a < 2 ^ k) :
    a ||| b <<< k = 2 ^ k * b + a := by
  apply Nat.eq_of_testBit_eq
  intro i
  rw [Nat.testBit_lor, Nat.testBit_mul_pow_two_add b h i, Nat.testBit_shiftLeft]
  by_cases hik : i < k
  · simp [Nat.not_le.mpr hik, hik]
  · have hi : a < 2 ^ i :=
      lt_of_lt_of_le h (Nat.pow_le_pow_right (by norm_num) (Nat.le_of_not_lt hik))
    simp [hik, Nat.le_of_not_lt hik, Nat.testBit_lt_two_pow hi]

theorem MAKE_SWIZZLE4_eq (a b c d : Nat) (ha : a < 8) (hb : b < 8) (hc : c < 8) :
    MAKE_SWIZZLE4 a b c d = a + 8 * b + 64 * c + 512 * d := by
  unfold MAKE_SWIZZLE4
  rw [lor_shiftLeft_disjoint a b 3 ha]
  rw [lor_shiftLeft_disjoint _ c 6 (by omega)]
  rw [lor_shiftLeft_disjoint _ d 9 (by omega)]
  ring

theorem GET_SWZ_eq (x i : Nat) : GET_SWZ x i = x / 2 ^ (i * 3) % 8 := by
  unfold GET_SWZ
  rw [Nat.shiftRight_eq_div_pow]
  have h7 : (7 : Nat) = 2 ^ 3 - 1 := rfl
  rw [h7, Nat.and_pow_two_sub_one_eq_mod]

theorem GET_SWZ_lt (x i : Nat) : GET_SWZ x i < 8 := by
  rw [GET_SWZ_eq]; exact Nat.mod_lt _ (by norm_num)

theorem GET_SWZ_MAKE (a b c d : Nat) (ha : a < 8) (hb : b < 8) (hc : c < 8)
    (hd : d < 8) :
    GET_SWZ (MAKE_SWIZZLE4 a b c d) 0 = a ∧
    GET_SWZ (MAKE_SWIZZLE4 a b c d) 1 = b ∧
    GET_SWZ (MAKE_SWIZZLE4 a b c d) 2 = c ∧
    GET_SWZ (MAKE_SWIZZLE4 a b c d) 3 = d := by
  rw [GET_SWZ_eq, GET_SWZ_eq, GET_SWZ_eq, GET_SWZ_eq, MAKE_SWIZZLE4_eq a b c d ha hb hc]
  omega

theorem MAKE_GET_SWZ (u : Nat) (h : u < 4096) :
    MAKE_SWIZZLE4 (GET_SWZ u 0) (GET_SWZ u 1) (GET_SWZ u 2) (GET_SWZ u 3) = u := by
  rw [MAKE_SWIZZLE4_eq _ _ _ _ (GET_SWZ_lt u 0) (GET_SWZ_lt u 1) (GET_SWZ_lt u 2)]
  rw [GET_SWZ_eq, GET_SWZ_eq, GET_SWZ_eq, GET_SWZ_eq]
  omega

theorem swizzle_step_lt (s t : Nat) : swizzle_step s t < 8 := by
  unfold swizzle_step
  split <;> first | apply GET_SWZ_lt | decide

theorem GET_SWZ_swizzle_swizzle (s1 s2 i : Nat) (h : i < 4) :
    GET_SWZ (swizzle_swizzle s1 s2) i = swizzle_step (GET_SWZ s1 i) s2 := by
  have hc := GET_SWZ_MAKE (swizzle_step (GET_SWZ s1 0) s2) (swizzle_step (GET_SWZ s1 1) s2)
    (swizzle_step (GET_SWZ s1 2) s2) (swizzle_step (GET_SWZ s1 3) s2)
    (swizzle_step_lt _ _) (swizzle_step_lt _ _) (swizzle_step_lt _ _) (swizzle_step_lt _ _)
  interval_cases i
  · exact hc.1
  · exact hc.2.1
  · exact hc.2.2.1
  · exact hc.2.2.2

theorem swizzle_step_id (s : Nat) (h : s ≤ 5) :
    swizzle_step s SWIZZLE_XYZW = s := by
  interval_cases s <;> decide

theorem swizzle_step_comp (s b c : Nat) (h : s ≤ 5) :
    swizzle_step s (swizzle_swizzle b c) = swizzle_step (swizzle_step s b) c := by
  interval_cases s
  · exact GET_SWZ_swizzle_swizzle b c 0 (by norm_num)
  · exact GET_SWZ_swizzle_swizzle b c 1 (by norm_num)
  · exact GET_SWZ_swizzle_swizzle b c 2 (by norm_num)
  · exact GET_SWZ_swizzle_swizzle b c 3 (by norm_num)
  · rfl
  · rfl

theorem swizzle_swizzle_id_left (t : Nat) (h : t < 4096) :
    swizzle_swizzle SWIZZLE_XYZW t = t := by
  unfold swizzle_swizzle
  have h0 : GET_SWZ SWIZZLE_XYZW 0 = 0 := by decide
  have h1 : GET_SWZ SWIZZLE_XYZW 1 = 1 := by decide
  have h2 : GET_SWZ SWIZZLE_XYZW 2 = 2 := by decide
  have h3 : GET_SWZ SWIZZLE_XYZW 3 = 3 := by decide
  rw [h0, h1, h2, h3]
  exact MAKE_GET_SWZ t h

theorem swizzle_swizzle_id_right (u : Nat) (h : swizzle_ok u) :
    swizzle_swizzle u SWIZZLE_XYZW = u := by
  unfold swizzle_swizzle
  rw [swizzle_step_id _ (h.2 0 (by norm_num)), swizzle_step_id _ (h.2 1 (by norm_num)),
      swizzle_step_id _ (h.2 2 (by norm_num)), swizzle_step_id _ (h.2 3 (by norm_num))]
  exact MAKE_GET_SWZ u h.1

theorem swizzle_swizzle_lt (s1 s2 : Nat) : swizzle_swizzle s1 s2 < 4096 := by
  unfold swizzle_swizzle
  rw [MAKE_SWIZZLE4_eq _ _ _ _ (swizzle_step_lt _ _) (swizzle_step_lt _ _)
    (swizzle_step_lt _ _)]
  have h0 := swizzle_step_lt (GET_SWZ s1 0) s2
  have h1 := swizzle_step_lt (GET_SWZ s1 1) s2
  have h2 := swizzle_step_lt (GET_SWZ s1 2) s2
  have h3 := swizzle_step_lt (GET_SWZ s1 3) s2
  omega

theorem swizzle_swizzle_assoc (a b c : Nat) (h : ∀ i < 4, GET_SWZ a i ≤ 5) :
    swizzle_swizzle a (swizzle_swizzle b c) =
      swizzle_swizzle (swizzle_swizzle a b) c := by
  have comp : ∀ i < 4, GET_SWZ (swizzle_swizzle a (swizzle_swizzle b c)) i =
      GET_SWZ (swizzle_swizzle (swizzle_swizzle a b) c) i := by
    intro i hi
    rw [GET_SWZ_swizzle_swizzle _ _ i hi, GET_SWZ_swizzle_swizzle _ _ i hi,
        GET_SWZ_swizzle_swizzle a b i hi]
    exact swizzle_step_comp _ b c (h i hi)
  calc swizzle_swizzle a (swizzle_swizzle b c)
      = MAKE_SWIZZLE4 (GET_SWZ (swizzle_swizzle a (swizzle_swizzle b c)) 0)
          (GET_SWZ (swizzle_swizzle a (swizzle_swizzle b c)) 1)
          (GET_SWZ (swizzle_swizzle a (swizzle_swizzle b c)) 2)
          (GET_SWZ (swizzle_swizzle a (swizzle_swizzle b c)) 3) :=
        (MAKE_GET_SWZ _ (swizzle_swizzle_lt _ _)).symm
    _ = MAKE_SWIZZLE4 (GET_SWZ (swizzle_swizzle (swizzle_swizzle a b) c) 0)
          (GET_SWZ (swizzle_swizzle (swizzle_swizzle a b) c) 1)
          (GET_SWZ (swizzle_swizzle (swizzle_swizzle a b) c) 2)
          (GET_SWZ (swizzle_swizzle (swizzle_swizzle a b) c) 3) := by
        rw [comp 0 (by norm_num), comp 1 (by norm_num), comp 2 (by norm_num),
            comp 3 (by norm_num)]
    _ = swizzle_swizzle (swizzle_swizzle a b) c :=
        MAKE_GET_SWZ _ (swizzle_swizzle_lt _ _)

/-! ## GL enumerants (numeric GLenum values from the GL headers) -/

def GL_NONE : Nat := 0
def GL_STENCIL_INDEX : Nat := 0x1901
def GL_DEPTH_COMPONENT : Nat := 0x1902
def GL_RED : Nat := 0x1903
def GL_ALPHA : Nat := 0x1906
def GL_RGB : Nat := 0x1907
def GL_RGBA : Nat := 0x1908
def GL_LUMINANCE : Nat := 0x1909
def GL_LUMINANCE_ALPHA : Nat := 0x190A
def GL_INTENSITY : Nat := 0x8049
def GL_RG : Nat := 0x8227
def GL_DEPTH_STENCIL : Nat := 0x84F9

/-- Modelled from the spec: the format-description service
(util/u_format.h is not part of this repository).  Pixel formats are
numeric codes (`enum pipe_format`); the service exposes the component
count, presence of an alpha channel, depth/stencil classification, the
stencil-only variant of a combined format, and the block geometry used
for buffer views.  The code under verification only calls these
accessors, so they are kept abstract as a record of functions. -/
structure FormatOps where
  has_alpha : Nat → Bool
  nr_components : Nat → Nat
  is_depth_or_stencil : Nat → Bool
  is_depth_and_stencil : Nat → Bool
  stencil_only : Nat → Nat
  block_bits : Nat → Nat
  block_width : Nat → Nat

/-- A concrete instance of the format service, used to evaluate the
model at specific inputs. -/
def simpleFormatOps : FormatOps where
  has_alpha := fun _ => false
  nr_components := fun _ => 1
  is_depth_or_stencil := fun _ => false
  is_depth_and_stencil := fun _ => false
  stencil_only := fun f => f
  block_bits := fun _ => 32
  block_width := fun _ => 1

/-- `compute_texture_format_swizzle` from st_atom_texture.c: given the
GL base format, the GL_DEPTH_MODE, the actual gallium format and the
consuming shader's GLSL version, compute the texture swizzle.  The C
`switch` is translated to an equality chain on the enum values; the
`assert(false)` default branches return `SWIZZLE_XYZW` as the C code
does after the assertion. -/
def compute_texture_format_swizzle (ops : FormatOps)
    (baseFormat depthMode actualFormat glsl_version : Nat) : Nat :=
  if baseFormat = GL_RGBA then SWIZZLE_XYZW
  else if baseFormat = GL_RGB then
    if ops.has_alpha actualFormat then
      MAKE_SWIZZLE4 SWIZZLE_X SWIZZLE_Y SWIZZLE_Z SWIZZLE_ONE
    else SWIZZLE_XYZW
  else if baseFormat = GL_RG then
    if ops.nr_components actualFormat > 2 then
      MAKE_SWIZZLE4 SWIZZLE_X SWIZZLE_Y SWIZZLE_ZERO SWIZZLE_ONE
    else SWIZZLE_XYZW
  else if baseFormat = GL_RED then
    if ops.nr_components actualFormat > 1 then
      MAKE_SWIZZLE4 SWIZZLE_X SWIZZLE_ZERO SWIZZLE_ZERO SWIZZLE_ONE
    else SWIZZLE_XYZW
  else if baseFormat = GL_ALPHA then
    if ops.nr_components actualFormat > 1 then
      MAKE_SWIZZLE4 SWIZZLE_ZERO SWIZZLE_ZERO SWIZZLE_ZERO SWIZZLE_W
    else SWIZZLE_XYZW
  else if baseFormat = GL_LUMINANCE then
    if ops.nr_components actualFormat > 1 then
      MAKE_SWIZZLE4 SWIZZLE_X SWIZZLE_X SWIZZLE_X SWIZZLE_ONE
    else SWIZZLE_XYZW
  else if baseFormat = GL_LUMINANCE_ALPHA then
    if ops.nr_components actualFormat > 2 then
      MAKE_SWIZZLE4 SWIZZLE_X SWIZZLE_X SWIZZLE_X SWIZZLE_W
    else SWIZZLE_XYZW
  else if baseFormat = GL_INTENSITY then
    if ops.nr_components actualFormat > 1 then SWIZZLE_XXXX
    else SWIZZLE_XYZW
  else if baseFormat = GL_STENCIL_INDEX ∨ baseFormat = GL_DEPTH_STENCIL ∨
          baseFormat = GL_DEPTH_COMPONENT then
    if depthMode = GL_LUMINANCE then
      MAKE_SWIZZLE4 SWIZZLE_X SWIZZLE_X SWIZZLE_X SWIZZLE_ONE
    else if depthMode = GL_INTENSITY then
      MAKE_SWIZZLE4 SWIZZLE_X SWIZZLE_X SWIZZLE_X SWIZZLE_X
    else if depthMode = GL_ALPHA then
      if glsl_version ≠ 0 ∧ glsl_version ≥ 130 then SWIZZLE_XXXX
      else MAKE_SWIZZLE4 SWIZZLE_ZERO SWIZZLE_ZERO SWIZZLE_ZERO SWIZZLE_X
    else if depthMode = GL_RED then
      MAKE_SWIZZLE4 SWIZZLE_X SWIZZLE_ZERO SWIZZLE_ZERO SWIZZLE_ONE
    else SWIZZLE_XYZW
  else SWIZZLE_XYZW

theorem swizzle_ok_ite (c : Prop) [Decidable c] (a b : Nat)
    (ha : swizzle_ok a) (hb : swizzle_ok b) : swizzle_ok (if c then a else b) := by
  by_cases h : c
  · simpa [h] using ha
  · simpa [h] using hb

theorem compute_texture_format_swizzle_ok (ops : FormatOps)
    (baseFormat depthMode actualFormat glsl_version : Nat) :
    swizzle_ok (compute_texture_format_swizzle ops baseFormat depthMode
      actualFormat glsl_version) := by
  unfold compute_texture_format_swizzle
  repeat' first
    | apply swizzle_ok_ite
    | decide

/-- C2: for a depth or stencil texture with depth read mode `GL_ALPHA`,
`compute_texture_format_swizzle` returns `(x,x,x,x)` exactly when the
consuming shader's GLSL version is at least 130 (the source guard
`glsl_version && glsl_version >= 130` is equivalent to `130 ≤ glsl`, as
130 ≤ v implies v ≠ 0), and `(0,0,0,x)` otherwise.  In particular a
depth texture with shader version 120 yields swizzle `(0,0,0,R)` and
the same texture with version 330 yields `(R,R,R,R)`. -/
theorem compute_texture_format_swizzle_depth_alpha (ops : FormatOps)
    (baseFormat actualFormat glsl_version : Nat)
    (h : baseFormat = GL_DEPTH_COMPONENT ∨ baseFormat = GL_DEPTH_STENCIL ∨
         baseFormat = GL_STENCIL_INDEX) :
    compute_texture_format_swizzle ops baseFormat GL_ALPHA actualFormat glsl_version =
      if 130 ≤ glsl_version then SWIZZLE_XXXX
      else MAKE_SWIZZLE4 SWIZZLE_ZERO SWIZZLE_ZERO SWIZZLE_ZERO SWIZZLE_X := by
  have key : ∀ u v : Nat,
      (if glsl_version ≠ 0 ∧ glsl_version ≥ 130 then u else v) =
        (if 130 ≤ glsl_version then u else v) := by
    intro u v
    by_cases h130 : 130 ≤ glsl_version
    · rw [if_pos h130, if_pos ⟨by omega, h130⟩]
    · rw [if_neg h130, if_neg (by omega)]
  rcases h with h | h | h <;> subst h <;>
    unfold compute_texture_format_swizzle <;>
    norm_num [GL_DEPTH_COMPONENT, GL_DEPTH_STENCIL, GL_STENCIL_INDEX, GL_RGBA, GL_RGB,
      GL_RG, GL_RED, GL_ALPHA, GL_LUMINANCE, GL_LUMINANCE_ALPHA, GL_INTENSITY,
      GL_NONE] <;>
    exact key _ _

/-- Witness for C2: evaluated at a depth texture (`GL_DEPTH_COMPONENT`)
with GLSL versions 330 and 120. -/
theorem compute_texture_format_swizzle_depth_alpha_witness :
    compute_texture_format_swizzle simpleFormatOps GL_DEPTH_COMPONENT GL_ALPHA 7 330 =
      SWIZZLE_XXXX ∧
    compute_texture_format_swizzle simpleFormatOps GL_DEPTH_COMPONENT GL_ALPHA 7 120 =
      MAKE_SWIZZLE4 SWIZZLE_ZERO SWIZZLE_ZERO SWIZZLE_ZERO SWIZZLE_X := by
  constructor
  · have h := compute_texture_format_swizzle_depth_alpha simpleFormatOps
      GL_DEPTH_COMPONENT 7 330 (Or.inl rfl)
    simpa using h
  · have h := compute_texture_format_swizzle_depth_alpha simpleFormatOps
      GL_DEPTH_COMPONENT 7 120 (Or.inl rfl)
    simpa using h

/-! ## vc4_blit.c: data model

Types mirror the gallium/vc4 structures used by the blit dispatcher.
`pipe_box` coordinates are C `int`, so they are `Int` here; sizes,
strides and sample counts are C unsigned, kept as `Nat` (no arithmetic
in this file can overflow 32 bits on the paths modelled, since the
computed stride is only compared for equality). The per-level slice
array of `vc4_resource` is a function from level to slice. -/

def PIPE_MASK_R : Nat := 1
def PIPE_MASK_G : Nat := 2
def PIPE_MASK_B : Nat := 4
def PIPE_MASK_A : Nat := 8
def PIPE_MASK_RGBA : Nat := 0xf
def PIPE_MASK_Z : Nat := 0x10
def PIPE_MASK_S : Nat := 0x20

def VC4_TILING_FORMAT_LINEAR : Nat := 0
def VC4_TILING_FORMAT_T : Nat := 1
def VC4_TILING_FORMAT_LT : Nat := 2

structure Vc4Slice where
  tiling : Nat
  stride : Nat

structure Vc4Resource where
  format : Nat
  nr_samples : Nat
  width0 : Nat
  height0 : Nat
  cpp : Nat
  slices : Nat → Vc4Slice

structure PipeBox where
  x : Int
  y : Int
  width : Int
  height : Int

structure BlitSide where
  resource : Vc4Resource
  level : Nat
  box : PipeBox

structure BlitInfo where
  src : BlitSide
  dst : BlitSide
  mask : Nat
  scissor_enable : Bool

structure PipeSurface where
  format : Nat
  width : Nat
  height : Nat
  nr_samples : Nat
  level : Nat

/-- `u_minify` from util/u_math.h (not part of this repository):
`MAX2(1, value >> levels)`, the dimension of mip level `levels`. -/
def u_minify (value levels : Nat) : Nat := max 1 (value >>> levels)

/-- The `align(value, alignment)` macro rounds `value` up to a multiple
of `alignment`; all alignments used here (16, 32, 128) are powers of
two, for which the C bit-mask form `(v + a - 1) & ~(a - 1)` equals this
division form. -/
def align (value alignment : Nat) : Nat := ((value + alignment - 1) / alignment) * alignment

/-- `is_tile_unaligned` from vc4_blit.c: `size & (tile_size - 1)` is
nonzero.  Callers pass `int` box fields converted to unsigned; for the
power-of-two tile sizes used (32, 64) the low-bit mask of the
two's-complement value equals the canonical nonnegative remainder, so
the test is `size % tile_size ≠ 0` on `Int` (Lean's `%` on `Int` is
`emod`, whose result is nonnegative for these positive moduli). -/
def is_tile_unaligned (size tile_size : Int) : Bool := size % tile_size != 0

/-- `vc4_get_blit_surface`: asks the context's `create_surface` for a
view of one mip level.  Modelled from the spec: the surface collaborator
returns a surface whose dimensions are the level's minified dimensions
and whose format/sample count come from the resource. -/
def vc4_get_blit_surface (prsc : Vc4Resource) (level : Nat) : PipeSurface :=
  { format := prsc.format
    width := u_minify prsc.width0 level
    height := u_minify prsc.height0 level
    nr_samples := prsc.nr_samples
    level := level }

/-- The vc4 driver context fields touched by the blit path.  Surface
bindings are options (NULL pointers are `none`); `flush_count` and
`submit_count` record calls into the GPU submission service. -/
structure Vc4Context where
  msaa : Bool
  tile_width : Int
  tile_height : Int
  color_read : Option PipeSurface
  color_write : Option PipeSurface
  msaa_color_write : Option PipeSurface
  zs_read : Option PipeSurface
  zs_write : Option PipeSurface
  msaa_zs_write : Option PipeSurface
  draw_min_x : Int
  draw_min_y : Int
  draw_max_x : Int
  draw_max_y : Int
  draw_width : Nat
  draw_height : Nat
  needs_flush : Bool
  flush_count : Nat
  submit_count : Nat

/-- Modelled from the spec: `vc4_flush` is the GPU command submission
service ("flush any pending GPU work"); fire-and-forget, it does not
alter the context fields tracked here. -/
def vc4_flush (vc4 : Vc4Context) : Vc4Context :=
  { vc4 with flush_count := vc4.flush_count + 1 }

/-- Modelled from the spec: `vc4_job_submit` submits the frame;
fire-and-forget, it does not alter the context fields tracked here. -/
def vc4_job_submit (vc4 : Vc4Context) : Vc4Context :=
  { vc4 with submit_count := vc4.submit_count + 1 }

/-- `vc4_tile_blit` from vc4_blit.c: the tile fast path.  Sequential
early-return checks mirror the C control flow; the accepted path
flushes, rebinds the read/write surfaces, sets the draw bounds and tile
state, submits the job, and restores the saved msaa/tile fields. -/
def vc4_tile_blit (ops : FormatOps) (vc4 : Vc4Context) (info : BlitInfo) :
    Bool × Vc4Context :=
  let old_msaa := vc4.msaa
  let old_tile_width := vc4.tile_width
  let old_tile_height := vc4.tile_height
  let msaa : Bool := info.src.resource.nr_samples > 1 || info.dst.resource.nr_samples > 1
  let tile_width : Int := if msaa then 32 else 64
  let tile_height : Int := if msaa then 32 else 64
  if ops.is_depth_or_stencil info.dst.resource.format then (false, vc4)
  else if info.scissor_enable then (false, vc4)
  else if info.mask &&& PIPE_MASK_RGBA = 0 then (false, vc4)
  else if info.dst.box.x ≠ info.src.box.x ∨ info.dst.box.y ≠ info.src.box.y ∨
          info.dst.box.width ≠ info.src.box.width ∨
          info.dst.box.height ≠ info.src.box.height then (false, vc4)
  else
    let dst_surface_width : Int := (u_minify info.dst.resource.width0 info.dst.level : Nat)
    let dst_surface_height : Int := (u_minify info.dst.resource.height0 info.dst.level : Nat)
    if is_tile_unaligned info.dst.box.x tile_width ∨
       is_tile_unaligned info.dst.box.y tile_height ∨
       (is_tile_unaligned info.dst.box.width tile_width ∧
        info.dst.box.x + info.dst.box.width ≠ dst_surface_width) ∨
       (is_tile_unaligned info.dst.box.height tile_height ∧
        info.dst.box.y + info.dst.box.height ≠ dst_surface_height) then (false, vc4)
    else
      let rsc := info.src.resource
      let stride : Nat :=
        if rsc.nr_samples > 1 then
          align (u_minify info.dst.resource.width0 info.dst.level) 32 * 4 * rsc.cpp
        else if (rsc.slices info.src.level).tiling = VC4_TILING_FORMAT_T then
          align (u_minify info.dst.resource.width0 info.dst.level * rsc.cpp) 128
        else
          align (u_minify info.dst.resource.width0 info.dst.level * rsc.cpp) 16
      if stride ≠ (rsc.slices info.src.level).stride then (false, vc4)
      else if info.dst.resource.format ≠ info.src.resource.format then (false, vc4)
      else
        let vc4a := vc4_flush vc4
        let dst_surf := vc4_get_blit_surface info.dst.resource info.dst.level
        let src_surf := vc4_get_blit_surface info.src.resource info.src.level
        let vc4b := { vc4a with
          color_read := some src_surf
          color_write := if dst_surf.nr_samples > 1 then none else some dst_surf
          msaa_color_write := if dst_surf.nr_samples > 1 then some dst_surf else none
          zs_read := none
          zs_write := none
          msaa_zs_write := none
          draw_min_x := info.dst.box.x
          draw_min_y := info.dst.box.y
          draw_max_x := info.dst.box.x + info.dst.box.width
          draw_max_y := info.dst.box.y + info.dst.box.height
          draw_width := dst_surf.width
          draw_height := dst_surf.height
          tile_width := tile_width
          tile_height := tile_height
          msaa := msaa
          needs_flush := true }
        let vc4c := vc4_job_submit vc4b
        let vc4d := { vc4c with
          msaa := old_msaa
          tile_width := old_tile_width
          tile_height := old_tile_height }
        (true, vc4d)

/-- The spec's applicability condition for the tile fast path, written
from the spec's words: destination not depth/stencil, no scissor, at
least one color channel in the mask, identical source/destination
boxes, destination region aligned to the tile grid (except on edges
that reach the surface edge), computed source stride equal to the
stored stride, and identical formats. -/
def tile_blit_applicable_spec (ops : FormatOps) (info : BlitInfo) : Prop :=
  let msaa : Bool := info.src.resource.nr_samples > 1 || info.dst.resource.nr_samples > 1
  let tile : Int := if msaa then 32 else 64
  ops.is_depth_or_stencil info.dst.resource.format = false ∧
  info.scissor_enable = false ∧
  info.mask &&& PIPE_MASK_RGBA ≠ 0 ∧
  info.dst.box.x = info.src.box.x ∧
  info.dst.box.y = info.src.box.y ∧
  info.dst.box.width = info.src.box.width ∧
  info.dst.box.height = info.src.box.height ∧
  info.dst.box.x % tile = 0 ∧
  info.dst.box.y % tile = 0 ∧
  (info.dst.box.width % tile = 0 ∨
   info.dst.box.x + info.dst.box.width =
     (u_minify info.dst.resource.width0 info.dst.level : Int)) ∧
  (info.dst.box.height % tile = 0 ∨
   info.dst.box.y + info.dst.box.height =
     (u_minify info.dst.resource.height0 info.dst.level : Int)) ∧
  (let rsc := info.src.resource
   (if rsc.nr_samples > 1 then
      align (u_minify info.dst.resource.width0 info.dst.level) 32 * 4 * rsc.cpp
    else if (rsc.slices info.src.level).tiling = VC4_TILING_FORMAT_T then
      align (u_minify info.dst.resource.width0 info.dst.level * rsc.cpp) 128
    else
      align (u_minify info.dst.resource.width0 info.dst.level * rsc.cpp) 16) =
     (rsc.slices info.src.level).stride) ∧
  info.dst.resource.format = info.src.resource.format

set_option maxHeartbeats 4000000 in
/-- C1: `vc4_tile_blit` returns true exactly when every applicability
constraint holds: destination not depth/stencil, no scissor, a color
bit in the channel mask, equal source/destination box offsets and
sizes, tile-grid alignment of the destination region (edges reaching
the surface edge excepted), source stride equal to the computed stride,
and equal formats.  Violating any one of them makes it return false,
falling through to a later strategy. -/
theorem vc4_tile_blit_applicable_iff (ops : FormatOps) (vc4 : Vc4Context)
    (info : BlitInfo) :
    (vc4_tile_blit ops vc4 info).1 = true ↔ tile_blit_applicable_spec ops info := by
  unfold vc4_tile_blit tile_blit_applicable_spec
  dsimp only
  split_ifs <;>
    simp_all [is_tile_unaligned] <;>
    tauto

set_option maxHeartbeats 4000000 in
/-- C7: for every blit request accepted by the tile fast path,
`vc4_tile_blit` restores the context's `tile_width`, `tile_height` and
`msaa` fields to the exact values they held before the call. -/
theorem vc4_tile_blit_restores_state (ops : FormatOps) (vc4 : Vc4Context)
    (info : BlitInfo) (h : (vc4_tile_blit ops vc4 info).1 = true) :
    (vc4_tile_blit ops vc4 info).2.msaa = vc4.msaa ∧
    (vc4_tile_blit ops vc4 info).2.tile_width = vc4.tile_width ∧
    (vc4_tile_blit ops vc4 info).2.tile_height = vc4.tile_height := by
  unfold vc4_tile_blit at h ⊢
  dsimp only at h ⊢
  split_ifs at h ⊢ <;> simp_all [vc4_job_submit, vc4_flush]

set_option maxHeartbeats 4000000 in
/-- C9: rejection by the tile fast path is state preserving — whenever
`vc4_tile_blit` returns false, the context is returned exactly as it
was (all applicability checks precede the first mutation). -/
theorem vc4_tile_blit_reject_no_mutation (ops : FormatOps) (vc4 : Vc4Context)
    (info : BlitInfo) (h : (vc4_tile_blit ops vc4 info).1 = false) :
    (vc4_tile_blit ops vc4 info).2 = vc4 := by
  unfold vc4_tile_blit at h ⊢
  dsimp only at h ⊢
  split_ifs at h ⊢ <;> simp_all

/-- A 64×64 color resource with linear tiling whose level-0 stride
matches the stride the tile path computes (`align(64*4, 16) = 256`). -/
def blitDemoRes : Vc4Resource :=
  { format := 1, nr_samples := 0, width0 := 64, height0 := 64, cpp := 4
    slices := fun _ => { tiling := VC4_TILING_FORMAT_LINEAR, stride := 256 } }

/-- A full-surface, same-format, non-scissored color blit between two
identically sized 64×64 surfaces: accepted by the tile path. -/
def blitDemoInfo : BlitInfo :=
  { src := { resource := blitDemoRes, level := 0
             box := { x := 0, y := 0, width := 64, height := 64 } }
    dst := { resource := blitDemoRes, level := 0
             box := { x := 0, y := 0, width := 64, height := 64 } }
    mask := PIPE_MASK_RGBA
    scissor_enable := false }

/-- The same request with scissoring enabled: rejected by the tile path. -/
def blitDemoInfoScissor : BlitInfo :=
  { blitDemoInfo with scissor_enable := true }

/-- The scissored request with a stencil bit in the channel mask. -/
def blitDemoInfoStencil : BlitInfo :=
  { blitDemoInfo with scissor_enable := true, mask := 0x2f }

/-- A demo starting context for evaluating the blit path. -/
def blitDemoCtx : Vc4Context :=
  { msaa := false, tile_width := 64, tile_height := 64
    color_read := none, color_write := none, msaa_color_write := none
    zs_read := none, zs_write := none, msaa_zs_write := none
    draw_min_x := 0, draw_min_y := 0, draw_max_x := 0, draw_max_y := 0
    draw_width := 0, draw_height := 0, needs_flush := false
    flush_count := 0, submit_count := 0 }

/-- Witness for C7: the accepted demo blit restores the tile state. -/
theorem vc4_tile_blit_restores_state_witness :
    (vc4_tile_blit simpleFormatOps blitDemoCtx blitDemoInfo).2.msaa = blitDemoCtx.msaa ∧
    (vc4_tile_blit simpleFormatOps blitDemoCtx blitDemoInfo).2.tile_width =
      blitDemoCtx.tile_width ∧
    (vc4_tile_blit simpleFormatOps blitDemoCtx blitDemoInfo).2.tile_height =
      blitDemoCtx.tile_height :=
  vc4_tile_blit_restores_state simpleFormatOps blitDemoCtx blitDemoInfo (by decide)

/-- Witness for C9: the rejected (scissored) demo blit leaves the
context untouched. -/
theorem vc4_tile_blit_reject_no_mutation_witness :
    (vc4_tile_blit simpleFormatOps blitDemoCtx blitDemoInfoScissor).2 = blitDemoCtx :=
  vc4_tile_blit_reject_no_mutation simpleFormatOps blitDemoCtx blitDemoInfoScissor
    (by decide)

/-! ## vc4_blit.c: dispatcher -/

inductive BlitPath
  | tile
  | copy_region
  | render
  | render_skipped
deriving DecidableEq

/-- Observable outcome of one `vc4_blit` call: the strategy that
handled the request, the channel mask handed to the render fallback
(when it ran), the diagnostics printed to stderr, and the final
context. -/
structure Vc4BlitRun where
  path : BlitPath
  render_mask : Option Nat
  diags : List String
  ctx : Vc4Context

/-- `vc4_render_blit` from vc4_blit.c.  The `util_blitter` collaborator
is the `supported` oracle (`util_blitter_is_blit_supported`); when it
declines the format pair the function prints the "blit unsupported"
diagnostic and returns false without copying.  The `util_blitter_save_*`
calls touch only the blitter's own saved state, not the modelled
context fields, and `util_blitter_blit` performs the draw. -/
def vc4_render_blit (supported : BlitInfo → Bool) (info : BlitInfo) :
    Bool × List String :=
  if !supported info then (false, ["blit unsupported"])
  else (true, [])

/-- `vc4_blit` from vc4_blit.c: try the tile fast path, then the
region-copy collaborator (`util_try_blit_via_copy_region`, the
`copy_region_ok` oracle), and finally the render fallback — after
stripping a requested stencil plane from the mask with a diagnostic
(`info.mask &= ~PIPE_MASK_S`; the complement of 0x20 in 32 bits is
0xFFFFFFDF). -/
def vc4_blit (ops : FormatOps) (vc4 : Vc4Context) (blit_info : BlitInfo)
    (copy_region_ok : Bool) (supported : BlitInfo → Bool) : Vc4BlitRun :=
  let tile := vc4_tile_blit ops vc4 blit_info
  if tile.1 then { path := .tile, render_mask := none, diags := [], ctx := tile.2 }
  else if copy_region_ok then
    { path := .copy_region, render_mask := none, diags := [], ctx := vc4 }
  else
    let stripped := blit_info.mask &&& PIPE_MASK_S ≠ 0
    let mask := if stripped then blit_info.mask &&& 0xFFFFFFDF else blit_info.mask
    let diags : List String :=
      if stripped then ["cannot blit stencil, skipping"] else []
    let info := { blit_info with mask := mask }
    let r := vc4_render_blit supported info
    { path := if r.1 then .render else .render_skipped
      render_mask := some mask
      diags := diags ++ r.2
      ctx := vc4 }

/-- C6: when the tile path and the region-copy collaborator both
decline, a stencil bit in the channel mask is removed (with the
"cannot blit stencil, skipping" diagnostic) before the render fallback
runs; and when the render fallback's collaborator reports the format
pair unsupported, the dispatcher emits the "blit unsupported"
diagnostic and returns without performing the copy — returning normally
in every case. -/
theorem vc4_blit_fallback (ops : FormatOps) (vc4 : Vc4Context) (blit_info : BlitInfo)
    (copy_region_ok : Bool) (supported : BlitInfo → Bool)
    (htile : (vc4_tile_blit ops vc4 blit_info).1 = false)
    (hcopy : copy_region_ok = false) :
    (blit_info.mask &&& PIPE_MASK_S ≠ 0 →
      (vc4_blit ops vc4 blit_info copy_region_ok supported).render_mask =
        some (blit_info.mask &&& 0xFFFFFFDF) ∧
      "cannot blit stencil, skipping" ∈
        (vc4_blit ops vc4 blit_info copy_region_ok supported).diags) ∧
    (∀ m, (vc4_blit ops vc4 blit_info copy_region_ok supported).render_mask = some m →
      supported { blit_info with mask := m } = false →
      (vc4_blit ops vc4 blit_info copy_region_ok supported).path = .render_skipped ∧
      "blit unsupported" ∈ (vc4_blit ops vc4 blit_info copy_region_ok supported).diags) := by
  unfold vc4_blit vc4_render_blit
  dsimp only
  rw [htile, hcopy]
  simp only [Bool.false_eq_true, if_false]
  by_cases hs : blit_info.mask &&& PIPE_MASK_S ≠ 0
  · simp only [if_pos hs]
    constructor
    · intro _
      refine ⟨by simp, ?_⟩
      by_cases hr : supported { blit_info with mask := blit_info.mask &&& 0xFFFFFFDF } <;>
        simp [hr]
    · intro m hm hsup
      have hm' : m = blit_info.mask &&& 4294967263 := by simpa using hm.symm
      subst hm'
      simp [hsup]
  · simp only [if_neg hs]
    constructor
    · intro h; exact absurd h hs
    · intro m hm hsup
      have hm' : m = blit_info.mask := by simpa using hm.symm
      subst hm'
      simp [hsup]

/-- Witness for C6: the scissored stencil-masked demo request falls
through both fast paths with an always-declining blitter; the mask
handed to the fallback is the request mask with the stencil bit
cleared, and both diagnostics are emitted. -/
theorem vc4_blit_fallback_witness :
    ((vc4_blit simpleFormatOps blitDemoCtx blitDemoInfoStencil false
        (fun _ => false)).render_mask = some (0x2f &&& 0xFFFFFFDF) ∧
      "cannot blit stencil, skipping" ∈
        (vc4_blit simpleFormatOps blitDemoCtx blitDemoInfoStencil false
          (fun _ => false)).diags) ∧
    ((vc4_blit simpleFormatOps blitDemoCtx blitDemoInfoStencil false
        (fun _ => false)).path = .render_skipped ∧
      "blit unsupported" ∈
        (vc4_blit simpleFormatOps blitDemoCtx blitDemoInfoStencil false
          (fun _ => false)).diags) := by
  have h := vc4_blit_fallback simpleFormatOps blitDemoCtx blitDemoInfoStencil false
    (fun _ => false) (by decide) rfl
  exact ⟨h.1 (by decide), h.2 (0x2f &&& 0xFFFFFFDF) (h.1 (by decide)).1 rfl⟩

/-- C5: swizzle composition laws of `swizzle_swizzle` (outer user
swizzle applied to an inner computed format swizzle): composing the
identity user swizzle with any computed format swizzle yields that
swizzle; composing any well-formed user swizzle with the identity
format swizzle `SWIZZLE_XYZW` yields the user swizzle; and composition
is associative (for an outer swizzle with legal component terms). -/
theorem swizzle_swizzle_laws :
    (∀ (ops : FormatOps) (baseFormat depthMode actualFormat glsl_version : Nat),
      swizzle_swizzle SWIZZLE_XYZW
          (compute_texture_format_swizzle ops baseFormat depthMode actualFormat
            glsl_version) =
        compute_texture_format_swizzle ops baseFormat depthMode actualFormat
          glsl_version) ∧
    (∀ u : Nat, swizzle_ok u → swizzle_swizzle u SWIZZLE_XYZW = u) ∧
    (∀ a b c : Nat, (∀ i < 4, GET_SWZ a i ≤ 5) →
      swizzle_swizzle a (swizzle_swizzle b c) =
        swizzle_swizzle (swizzle_swizzle a b) c) := by
  refine ⟨?_, ?_, ?_⟩
  · intro ops baseFormat depthMode actualFormat glsl_version
    exact swizzle_swizzle_id_left _
      (compute_texture_format_swizzle_ok ops baseFormat depthMode actualFormat
        glsl_version).1
  · intro u hu
    exact swizzle_swizzle_id_right u hu
  · intro a b c h
    exact swizzle_swizzle_assoc a b c h

/-- Witness for C5: the right-identity law evaluated at the concrete
user swizzle `(w, zero, one, x)`. -/
theorem swizzle_swizzle_laws_witness :
    swizzle_swizzle (MAKE_SWIZZLE4 SWIZZLE_W SWIZZLE_ZERO SWIZZLE_ONE SWIZZLE_X)
        SWIZZLE_XYZW =
      MAKE_SWIZZLE4 SWIZZLE_W SWIZZLE_ZERO SWIZZLE_ONE SWIZZLE_X :=
  swizzle_swizzle_laws.2.1 _ (by decide)

/-! ## st_atom_texture.c: sampler-view cache model -/

def U32_MOD : Nat := 4294967296

/-- Reduction modulo 2^32: C unsigned arithmetic. -/
def u32 (n : Nat) : Nat := n % U32_MOD

/-- C unsigned subtraction `a - b` (wraps modulo 2^32). -/
def u32_sub (a b : Nat) : Nat := u32 (a + (U32_MOD - u32 b))

/-- Cast of a signed C value to unsigned (modulo 2^32). -/
def intCastU32 (i : Int) : Nat := (i % (U32_MOD : Int)).toNat

inductive PipeTarget
  | buffer
  | tex1d
  | tex2d
  | tex3d
  | cube
  | rect
  | tex1d_array
  | tex2d_array
  | cube_array
deriving DecidableEq

structure PipeResource where
  target : PipeTarget
  format : Nat
  width0 : Nat
  last_level : Nat
  array_size : Nat
deriving DecidableEq

/-- The fields of `gl_texture_object` (and of its first image, and the
result of the `_mesa_texture_base_format` accessor, which live outside
this repository and are modelled from the spec as plain state) read by
the sampler-view code. -/
structure GLTexBase where
  Target : Nat
  DepthMode : Nat
  _Swizzle : Nat
  MinLevel : Nat
  BaseLevel : Nat
  _MaxLevel : Nat
  NumLevels : Nat
  MinLayer : Nat
  NumLayers : Nat
  Immutable : Bool
  StencilSampling : Bool
  BufferOffset : Nat
  BufferSize : Int
  baseFormat : Nat
  firstImageInternalFormat : Nat
  firstImageBaseFormat : Nat
deriving DecidableEq

structure StTextureObject where
  base : GLTexBase
  pt : Option PipeResource
deriving DecidableEq

/-- The state-tracker context: whether the GL context is ES 3.0, and
the identity of the owning driver context (`st->pipe`), used for the
cross-context ownership check. -/
structure StContext where
  is_gles3 : Bool
  pipe : Nat
deriving DecidableEq

/-- `struct pipe_sampler_view`.  The C `u` union is modelled as
disjoint `first/last_level`, `first/last_layer` (u.tex) and
`first/last_element` (u.buf) fields; `id` tags the allocation that
created the view so that instance identity is observable, and
`context` is the owning driver context. -/
structure PipeSamplerView where
  context : Nat
  id : Nat
  format : Nat
  target : PipeTarget
  first_level : Nat
  last_level : Nat
  first_layer : Nat
  last_layer : Nat
  first_element : Nat
  last_element : Nat
  swizzle_r : Nat
  swizzle_g : Nat
  swizzle_b : Nat
  swizzle_a : Nat
deriving DecidableEq

/-- The template fields filled in before asking the driver for a view. -/
structure SamplerViewTempl where
  format : Nat
  target : PipeTarget
  first_level : Nat
  last_level : Nat
  first_layer : Nat
  last_layer : Nat
  first_element : Nat
  last_element : Nat
  swizzle_r : Nat
  swizzle_g : Nat
  swizzle_b : Nat
  swizzle_a : Nat
deriving DecidableEq

/-- `u_sampler_view_default_template` (util/u_sampler.c, not part of
this repository).  Modelled from the spec: presets the view template to
the given format, the resource's own target, its full mip and layer
range and identity swizzles; the code under verification overwrites
every field it relies on afterwards. -/
def u_sampler_view_default_template (texture : PipeResource) (format : Nat) :
    SamplerViewTempl :=
  { format := format
    target := texture.target
    first_level := 0
    last_level := texture.last_level
    first_layer := 0
    last_layer := u32_sub texture.array_size 1
    first_element := 0
    last_element := 0
    swizzle_r := SWIZZLE_X
    swizzle_g := SWIZZLE_Y
    swizzle_b := SWIZZLE_Z
    swizzle_a := SWIZZLE_W }

/-- `pipe->create_sampler_view` (driver collaborator).  Modelled from
the spec: allocates a new reference-counted view owned by `pipe` with
exactly the template's descriptor fields; `alloc` is the allocation
counter whose value tags the new instance. -/
def create_sampler_view (pipe : Nat) (templ : SamplerViewTempl) (alloc : Nat) :
    PipeSamplerView × Nat :=
  ({ context := pipe
     id := alloc
     format := templ.format
     target := templ.target
     first_level := templ.first_level
     last_level := templ.last_level
     first_layer := templ.first_layer
     last_layer := templ.last_layer
     first_element := templ.first_element
     last_element := templ.last_element
     swizzle_r := templ.swizzle_r
     swizzle_g := templ.swizzle_g
     swizzle_b := templ.swizzle_b
     swizzle_a := templ.swizzle_a }, alloc + 1)

/-- The descriptor fields of an existing view, used as a template when
a view is re-created in a different context. -/
def templateOfView (sv : PipeSamplerView) : SamplerViewTempl :=
  { format := sv.format
    target := sv.target
    first_level := sv.first_level
    last_level := sv.last_level
    first_layer := sv.first_layer
    last_layer := sv.last_layer
    first_element := sv.first_element
    last_element := sv.last_element
    swizzle_r := sv.swizzle_r
    swizzle_g := sv.swizzle_g
    swizzle_b := sv.swizzle_b
    swizzle_a := sv.swizzle_a }

def GL_TEXTURE_BUFFER : Nat := 0x8C2A

/-- `gl_target_to_pipe` (st_cb_texture.c, not part of this repository).
Modelled from the spec: a fixed injective-on-used-targets mapping from
GL texture targets to pipe targets; only `GL_TEXTURE_BUFFER ↦ buffer`
and determinism are relied upon here. -/
def gl_target_to_pipe (target : Nat) : PipeTarget :=
  if target = GL_TEXTURE_BUFFER then PipeTarget.buffer else PipeTarget.tex2d

/-- `get_texture_format_swizzle` from st_atom_texture.c: derive the
format swizzle (with the GLES3 forced-`GL_RED` depth-mode rule) and
compose it with the user swizzle, user swizzle outermost. -/
def get_texture_format_swizzle (ops : FormatOps) (st : StContext)
    (stObj : GLTexBase) (pt : PipeResource) (glsl_version : Nat) : Nat :=
  let baseFormat := stObj.baseFormat
  let tex_swizzle :=
    if baseFormat ≠ GL_NONE then
      let depth_mode :=
        if st.is_gles3 ∧ ops.is_depth_or_stencil pt.format = true ∧
           stObj.firstImageInternalFormat ≠ GL_DEPTH_COMPONENT ∧
           stObj.firstImageInternalFormat ≠ GL_DEPTH_STENCIL ∧
           stObj.firstImageInternalFormat ≠ GL_STENCIL_INDEX then GL_RED
        else stObj.DepthMode
      compute_texture_format_swizzle ops baseFormat depth_mode pt.format glsl_version
    else SWIZZLE_XYZW
  swizzle_swizzle stObj._Swizzle tex_swizzle

/-- `check_sampler_swizzle` from st_atom_texture.c: true when the
view's stored swizzle differs from the freshly computed one. -/
def check_sampler_swizzle (ops : FormatOps) (st : StContext) (stObj : GLTexBase)
    (pt : PipeResource) (sv : PipeSamplerView) (glsl_version : Nat) : Bool :=
  let swizzle := get_texture_format_swizzle ops st stObj pt glsl_version
  (sv.swizzle_r != GET_SWZ swizzle 0) ||
  (sv.swizzle_g != GET_SWZ swizzle 1) ||
  (sv.swizzle_b != GET_SWZ swizzle 2) ||
  (sv.swizzle_a != GET_SWZ swizzle 3)

/-- `last_level` from st_atom_texture.c (all arithmetic is C unsigned). -/
def last_level (stObj : GLTexBase) (pt : PipeResource) : Nat :=
  let ret := min (u32 (stObj.MinLevel + stObj._MaxLevel)) pt.last_level
  if stObj.Immutable then min ret (u32_sub (u32 (stObj.MinLevel + stObj.NumLevels)) 1)
  else ret

/-- `last_layer` from st_atom_texture.c. -/
def last_layer (stObj : GLTexBase) (pt : PipeResource) : Nat :=
  if stObj.Immutable ∧ pt.array_size > 1 then
    min (u32_sub (u32 (stObj.MinLayer + stObj.NumLayers)) 1) (u32_sub pt.array_size 1)
  else u32_sub pt.array_size 1

/-- `st_create_texture_sampler_view_from_stobj`: build the view
template (buffer textures get a linear element range scaled by the
format's block size and may yield no view; other textures get the
level/layer range and pipe target), fill in the swizzle, and ask the
driver for the view. -/
def st_create_texture_sampler_view_from_stobj (ops : FormatOps) (st : StContext)
    (stObj : GLTexBase) (pt : PipeResource) (format : Nat) (glsl_version : Nat)
    (alloc : Nat) : Option PipeSamplerView × Nat :=
  let swizzle := get_texture_format_swizzle ops st stObj pt glsl_version
  let templ0 := u_sampler_view_default_template pt format
  let branch : Option SamplerViewTempl :=
    if pt.target = PipeTarget.buffer then
      let base := stObj.BufferOffset
      if base ≥ pt.width0 then none
      else
        let size := min (pt.width0 - base) (intCastU32 stObj.BufferSize)
        let f := base / (ops.block_bits templ0.format / 8) * ops.block_width templ0.format
        let n := size / (ops.block_bits templ0.format / 8) * ops.block_width templ0.format
        if n = 0 then none
        else some { templ0 with first_element := f, last_element := f + (n - 1) }
    else
      some { templ0 with
        first_level := u32 (stObj.MinLevel + stObj.BaseLevel)
        last_level := last_level stObj pt
        first_layer := stObj.MinLayer
        last_layer := last_layer stObj pt
        target := gl_target_to_pipe stObj.Target }
  match branch with
  | none => (none, alloc)
  | some t =>
    let t := { t with
      swizzle_r := GET_SWZ swizzle 0
      swizzle_g := GET_SWZ swizzle 1
      swizzle_b := GET_SWZ swizzle 2
      swizzle_a := GET_SWZ swizzle 3 }
    let (v, alloc') := create_sampler_view st.pipe t alloc
    (some v, alloc')

/-- The per-texture cache slot (`st_texture_get_sampler_view` returns
its address; modelled from the spec as explicit state) together with
the allocation counter of the driver's view constructor. -/
structure StCacheState where
  slot : Option PipeSamplerView
  alloc : Nat
deriving DecidableEq

def GL_STENCIL_INDEX8 : Nat := 0x8D48

/-- The stencil narrowing at the top of
`st_get_texture_sampler_view_from_stobj`: a depth-and-stencil request
becomes stencil-only when the object samples stencil, or when the first
image's base format is pure stencil. -/
def stencil_narrow_format (ops : FormatOps) (stObj : GLTexBase) (format0 : Nat) : Nat :=
  if ops.is_depth_and_stencil format0 then
    if stObj.StencilSampling then ops.stencil_only format0
    else if stObj.firstImageBaseFormat = GL_STENCIL_INDEX then ops.stencil_only format0
    else format0
  else format0

/-- The "sampler view has changed" condition of
`st_get_texture_sampler_view_from_stobj`: stored swizzle, format,
target, level range or layer range differs from the freshly computed
descriptor. -/
def sampler_view_stale (ops : FormatOps) (st : StContext) (stObj : GLTexBase)
    (pt : PipeResource) (format : Nat) (sv : PipeSamplerView)
    (glsl_version : Nat) : Prop :=
  check_sampler_swizzle ops st stObj pt sv glsl_version = true ∨
  format ≠ sv.format ∨
  gl_target_to_pipe stObj.Target ≠ sv.target ∨
  u32 (stObj.MinLevel + stObj.BaseLevel) ≠ sv.first_level ∨
  last_level stObj pt ≠ sv.last_level ∨
  stObj.MinLayer ≠ sv.first_layer ∨
  last_layer stObj pt ≠ sv.last_layer

instance (ops : FormatOps) (st : StContext) (stObj : GLTexBase) (pt : PipeResource)
    (format : Nat) (sv : PipeSamplerView) (glsl_version : Nat) :
    Decidable (sampler_view_stale ops st stObj pt format sv glsl_version) := by
  unfold sampler_view_stale; infer_instance

/-- `st_get_texture_sampler_view_from_stobj`: the cache's public
interface.  Null texture object or missing GPU resource yields no
view; the requested format is narrowed, a stale cached view is
released, a missing entry is rebuilt, and an entry owned by another
context is re-created from itself as template. -/
def st_get_texture_sampler_view_from_stobj (ops : FormatOps) (st : StContext)
    (stObjOpt : Option StTextureObject) (format0 : Nat) (glsl_version : Nat)
    (s : StCacheState) : Option PipeSamplerView × StCacheState :=
  match stObjOpt with
  | none => (none, s)
  | some stObj =>
    match stObj.pt with
    | none => (none, s)
    | some pt =>
      let format := stencil_narrow_format ops stObj.base format0
      let slot :=
        match s.slot with
        | some sv =>
          if sampler_view_stale ops st stObj.base pt format sv glsl_version then none
          else some sv
        | none => none
      match slot with
      | none =>
        let (v, alloc') := st_create_texture_sampler_view_from_stobj ops st stObj.base
          pt format glsl_version s.alloc
        (v, { slot := v, alloc := alloc' })
      | some sv =>
        if sv.context ≠ st.pipe then
          let (nv, alloc') := create_sampler_view st.pipe (templateOfView sv) s.alloc
          (some nv, { slot := some nv, alloc := alloc' })
        else (some sv, { slot := some sv, alloc := s.alloc })

theorem st_create_nonbuffer (ops : FormatOps) (st : StContext) (stObj : GLTexBase)
    (pt : PipeResource) (format : Nat) (glsl_version : Nat) (alloc : Nat)
    (hbuf : pt.target ≠ PipeTarget.buffer) :
    st_create_texture_sampler_view_from_stobj ops st stObj pt format glsl_version alloc =
      (some { context := st.pipe
              id := alloc
              format := format
              target := gl_target_to_pipe stObj.Target
              first_level := u32 (stObj.MinLevel + stObj.BaseLevel)
              last_level := last_level stObj pt
              first_layer := stObj.MinLayer
              last_layer := last_layer stObj pt
              first_element := 0
              last_element := 0
              swizzle_r := GET_SWZ (get_texture_format_swizzle ops st stObj pt glsl_version) 0
              swizzle_g := GET_SWZ (get_texture_format_swizzle ops st stObj pt glsl_version) 1
              swizzle_b := GET_SWZ (get_texture_format_swizzle ops st stObj pt glsl_version) 2
              swizzle_a := GET_SWZ (get_texture_format_swizzle ops st stObj pt glsl_version) 3 },
        alloc + 1) := by
  unfold st_create_texture_sampler_view_from_stobj
  dsimp only
  rw [if_neg hbuf]
  rfl

/-- Every view handed out by the cache for a non-buffer texture carries
the freshly computed descriptor and is owned by the calling context. -/
theorem st_get_post (ops : FormatOps) (st : StContext) (base : GLTexBase)
    (pt : PipeResource) (format0 : Nat) (glsl_version : Nat) (s : StCacheState)
    (hbuf : pt.target ≠ PipeTarget.buffer) :
    ∃ v, (st_get_texture_sampler_view_from_stobj ops st
        (some { base := base, pt := some pt }) format0 glsl_version s).1 = some v ∧
      (st_get_texture_sampler_view_from_stobj ops st
        (some { base := base, pt := some pt }) format0 glsl_version s).2.slot = some v ∧
      v.context = st.pipe ∧
      ¬ sampler_view_stale ops st base pt (stencil_narrow_format ops base format0) v
          glsl_version := by
  unfold st_get_texture_sampler_view_from_stobj
  dsimp only
  cases hslot : s.slot with
  | none =>
    dsimp only
    rw [st_create_nonbuffer ops st base pt _ glsl_version s.alloc hbuf]
    refine ⟨_, rfl, rfl, rfl, ?_⟩
    simp [sampler_view_stale, check_sampler_swizzle]
  | some sv =>
    dsimp only
    by_cases hstale : sampler_view_stale ops st base pt
        (stencil_narrow_format ops base format0) sv glsl_version
    · rw [if_pos hstale]
      dsimp only
      rw [st_create_nonbuffer ops st base pt _ glsl_version s.alloc hbuf]
      refine ⟨_, rfl, rfl, rfl, ?_⟩
      simp [sampler_view_stale, check_sampler_swizzle]
    · rw [if_neg hstale]
      dsimp only
      by_cases hctx : sv.context ≠ st.pipe
      · rw [if_pos hctx]
        dsimp only
        refine ⟨_, rfl, rfl, rfl, ?_⟩
        simp only [sampler_view_stale, check_sampler_swizzle, templateOfView,
          create_sampler_view, bne_iff_ne, ne_eq] at hstale ⊢
        exact hstale
      · rw [if_neg hctx]
        push_neg at hctx
        exact ⟨sv, rfl, rfl, hctx, hstale⟩

/-- A fresh, correctly-owned cached view is handed back unchanged. -/
theorem st_get_hit (ops : FormatOps) (st : StContext) (base : GLTexBase)
    (pt : PipeResource) (format0 : Nat) (glsl_version : Nat) (s : StCacheState)
    (v : PipeSamplerView)
    (hslot : s.slot = some v)
    (hctx : v.context = st.pipe)
    (hfresh : ¬ sampler_view_stale ops st base pt
        (stencil_narrow_format ops base format0) v glsl_version) :
    st_get_texture_sampler_view_from_stobj ops st (some { base := base, pt := some pt })
      format0 glsl_version s = (some v, s) := by
  unfold st_get_texture_sampler_view_from_stobj
  dsimp only
  rw [hslot]
  dsimp only
  rw [if_neg hfresh]
  dsimp only
  rw [if_neg (by simp [hctx])]
  cases s with
  | mk slot alloc => simp_all

/-- C4: resolving a view twice with identical context, texture object
state, requested format and GLSL version returns the identical cached
instance and leaves the cache state (slot and allocation counter)
untouched on the second call. -/
theorem sampler_view_cache_idempotent (ops : FormatOps) (st : StContext)
    (base : GLTexBase) (pt : PipeResource) (format0 : Nat) (glsl_version : Nat)
    (s : StCacheState) (hbuf : pt.target ≠ PipeTarget.buffer) :
    (st_get_texture_sampler_view_from_stobj ops st (some { base := base, pt := some pt })
        format0 glsl_version
        (st_get_texture_sampler_view_from_stobj ops st
          (some { base := base, pt := some pt }) format0 glsl_version s).2).1 =
      (st_get_texture_sampler_view_from_stobj ops st
        (some { base := base, pt := some pt }) format0 glsl_version s).1 ∧
    (st_get_texture_sampler_view_from_stobj ops st (some { base := base, pt := some pt })
        format0 glsl_version
        (st_get_texture_sampler_view_from_stobj ops st
          (some { base := base, pt := some pt }) format0 glsl_version s).2).2 =
      (st_get_texture_sampler_view_from_stobj ops st
        (some { base := base, pt := some pt }) format0 glsl_version s).2 := by
  obtain ⟨v, hv1, hv2, hctx, hfresh⟩ :=
    st_get_post ops st base pt format0 glsl_version s hbuf
  have hhit := st_get_hit ops st base pt format0 glsl_version
    (st_get_texture_sampler_view_from_stobj ops st (some { base := base, pt := some pt })
      format0 glsl_version s).2 v hv2 hctx hfresh
  rw [hhit]
  exact ⟨hv1.symm, rfl⟩

theorem first_le_last_level (stObj : GLTexBase) (pt : PipeResource)
    (h1 : stObj.BaseLevel ≤ stObj._MaxLevel)
    (h2 : stObj.MinLevel + stObj.BaseLevel ≤ pt.last_level)
    (h3 : stObj.Immutable = true → stObj.BaseLevel + 1 ≤ stObj.NumLevels)
    (hb1 : stObj.MinLevel + stObj._MaxLevel < U32_MOD)
    (hb2 : stObj.MinLevel + stObj.NumLevels < U32_MOD) :
    u32 (stObj.MinLevel + stObj.BaseLevel) ≤ last_level stObj pt := by
  simp only [last_level, u32_sub, u32, U32_MOD] at *
  split_ifs with him
  · have h3' := h3 him
    omega
  · omega

theorem first_le_last_layer (stObj : GLTexBase) (pt : PipeResource)
    (h4 : stObj.MinLayer + 1 ≤ pt.array_size)
    (h5 : stObj.Immutable = true → 1 ≤ stObj.NumLayers)
    (hb3 : stObj.MinLayer + stObj.NumLayers < U32_MOD)
    (hb4 : pt.array_size < U32_MOD) :
    stObj.MinLayer ≤ last_layer stObj pt := by
  simp only [last_layer, u32_sub, u32, U32_MOD] at *
  split_ifs with him
  · have h5' := h5 him.1
    omega
  · omega

/-- C3 (amended): under the GL texture-completeness invariants
(BaseLevel ≤ _MaxLevel; MinLevel+BaseLevel within the resource's mip
range; for immutable textures BaseLevel < NumLevels and NumLayers ≥ 1;
MinLayer within the array; all quantities below 2^32 so the unsigned
arithmetic does not wrap), every view the cache returns for a
non-buffer texture satisfies first_level ≤ last_level and
first_layer ≤ last_layer. -/
theorem sampler_view_level_layer_range_valid (ops : FormatOps) (st : StContext)
    (base : GLTexBase) (pt : PipeResource) (format0 : Nat) (glsl_version : Nat)
    (s : StCacheState)
    (hbuf : pt.target ≠ PipeTarget.buffer)
    (h1 : base.BaseLevel ≤ base._MaxLevel)
    (h2 : base.MinLevel + base.BaseLevel ≤ pt.last_level)
    (h3 : base.Immutable = true → base.BaseLevel + 1 ≤ base.NumLevels)
    (h4 : base.MinLayer + 1 ≤ pt.array_size)
    (h5 : base.Immutable = true → 1 ≤ base.NumLayers)
    (hb1 : base.MinLevel + base._MaxLevel < U32_MOD)
    (hb2 : base.MinLevel + base.NumLevels < U32_MOD)
    (hb3 : base.MinLayer + base.NumLayers < U32_MOD)
    (hb4 : pt.array_size < U32_MOD) :
    ∀ v, (st_get_texture_sampler_view_from_stobj ops st
        (some { base := base, pt := some pt }) format0 glsl_version s).1 = some v →
      v.first_level ≤ v.last_level ∧ v.first_layer ≤ v.last_layer := by
  intro v hv
  obtain ⟨v', hv1, -, -, hfresh⟩ :=
    st_get_post ops st base pt format0 glsl_version s hbuf
  rw [hv1] at hv
  obtain rfl : v' = v := Option.some.inj hv
  unfold sampler_view_stale at hfresh
  push_neg at hfresh
  obtain ⟨-, -, -, hfl, hll, hfy, hly⟩ := hfresh
  constructor
  · rw [← hfl, ← hll]
    exact first_le_last_level base pt h1 h2 h3 hb1 hb2
  · rw [← hfy, ← hly]
    exact first_le_last_layer base pt h4 h5 hb3 hb4

def GL_TEXTURE_2D : Nat := 0x0DE1

/-- The state tracker context used for concrete evaluations. -/
def demoStCtx : StContext := { is_gles3 := false, pipe := 0 }

/-- A texture-object state violating the GL invariant BaseLevel ≤
_MaxLevel (BaseLevel 1, _MaxLevel 0) on a single-level resource. -/
def cexBase : GLTexBase :=
  { Target := GL_TEXTURE_2D, DepthMode := GL_LUMINANCE, _Swizzle := SWIZZLE_XYZW
    MinLevel := 0, BaseLevel := 1, _MaxLevel := 0, NumLevels := 1
    MinLayer := 0, NumLayers := 1, Immutable := false, StencilSampling := false
    BufferOffset := 0, BufferSize := 0, baseFormat := GL_RGBA
    firstImageInternalFormat := 0, firstImageBaseFormat := 0 }

def cexPt : PipeResource :=
  { target := PipeTarget.tex2d, format := 1, width0 := 64, last_level := 0
    array_size := 1 }

/-- Counterexample for C3 as stated: with arbitrary ("any") texture
object state the invariant fails — at BaseLevel 1, _MaxLevel 0 on a
single-level resource the returned view has first_level 1 >
last_level 0, i.e. the view violates first_level ≤ last_level (the C
assertion would fire). -/
theorem sampler_view_level_range_cex :
    ((st_get_texture_sampler_view_from_stobj simpleFormatOps demoStCtx
        (some { base := cexBase, pt := some cexPt }) 1 120
        { slot := none, alloc := 0 }).1.map
      fun v => decide (v.first_level ≤ v.last_level)) = some false := by decide

/-- A GL-consistent variant of the same state (BaseLevel 0). -/
def demoGoodBase : GLTexBase := { cexBase with BaseLevel := 0 }

/-- The view the cache builds for `demoGoodBase` from an empty slot
with allocation counter 5. -/
def demoView : PipeSamplerView :=
  { context := 0, id := 5, format := 1, target := PipeTarget.tex2d
    first_level := 0, last_level := 0, first_layer := 0, last_layer := 0
    first_element := 0, last_element := 0
    swizzle_r := 0, swizzle_g := 1, swizzle_b := 2, swizzle_a := 3 }

/-- Witness for C3 (amended), evaluated at the GL-consistent state. -/
theorem sampler_view_level_layer_range_valid_witness :
    demoView.first_level ≤ demoView.last_level ∧
    demoView.first_layer ≤ demoView.last_layer :=
  sampler_view_level_layer_range_valid simpleFormatOps demoStCtx demoGoodBase cexPt 1 120
    { slot := none, alloc := 5 } (by decide) (by decide) (by decide) (by decide)
    (by decide) (by decide) (by decide) (by decide) (by decide) (by decide)
    demoView (by decide)

/-- Witness for C4: both calls evaluated on the GL-consistent state
from an empty cache slot. -/
theorem sampler_view_cache_idempotent_witness :
    (st_get_texture_sampler_view_from_stobj simpleFormatOps demoStCtx
        (some { base := demoGoodBase, pt := some cexPt }) 1 120
        (st_get_texture_sampler_view_from_stobj simpleFormatOps demoStCtx
          (some { base := demoGoodBase, pt := some cexPt }) 1 120
          { slot := none, alloc := 5 }).2).1 =
      (st_get_texture_sampler_view_from_stobj simpleFormatOps demoStCtx
        (some { base := demoGoodBase, pt := some cexPt }) 1 120
        { slot := none, alloc := 5 }).1 ∧
    (st_get_texture_sampler_view_from_stobj simpleFormatOps demoStCtx
        (some { base := demoGoodBase, pt := some cexPt }) 1 120
        (st_get_texture_sampler_view_from_stobj simpleFormatOps demoStCtx
          (some { base := demoGoodBase, pt := some cexPt }) 1 120
          { slot := none, alloc := 5 }).2).2 =
      (st_get_texture_sampler_view_from_stobj simpleFormatOps demoStCtx
        (some { base := demoGoodBase, pt := some cexPt }) 1 120
        { slot := none, alloc := 5 }).2 :=
  sampler_view_cache_idempotent simpleFormatOps demoStCtx demoGoodBase cexPt 1 120
    { slot := none, alloc := 5 } (by decide)

/-- C10: at the cache's public interface, a null texture object, or one
whose GPU resource is not allocated, yields no view and leaves the
cache state untouched. -/
theorem st_get_sampler_view_null_object (ops : FormatOps) (st : StContext)
    (format0 : Nat) (glsl_version : Nat) (s : StCacheState) :
    st_get_texture_sampler_view_from_stobj ops st none format0 glsl_version s =
      (none, s) ∧
    ∀ base : GLTexBase,
      st_get_texture_sampler_view_from_stobj ops st (some { base := base, pt := none })
          format0 glsl_version s = (none, s) :=
  ⟨rfl, fun _ => rfl⟩

/-- C8: for a buffer-backed texture, view creation computes the linear
element range from the byte offset/size pair scaled by the format's
block size, yields no view when the offset is at or beyond the
buffer's width or the computed element count is zero, and otherwise
sets the element range to [f, f + n - 1]. -/
theorem buffer_sampler_view_element_range (ops : FormatOps) (st : StContext)
    (stObj : GLTexBase) (pt : PipeResource) (format : Nat) (glsl_version : Nat)
    (alloc : Nat)
    (hbuf : pt.target = PipeTarget.buffer)
    (hbb : 0 < ops.block_bits format / 8) :
    ((st_create_texture_sampler_view_from_stobj ops st stObj pt format glsl_version
        alloc).1 = none ↔
      stObj.BufferOffset ≥ pt.width0 ∨
      min (pt.width0 - stObj.BufferOffset) (intCastU32 stObj.BufferSize) /
          (ops.block_bits format / 8) * ops.block_width format = 0) ∧
    (∀ v, (st_create_texture_sampler_view_from_stobj ops st stObj pt format glsl_version
        alloc).1 = some v →
      v.first_element =
        stObj.BufferOffset / (ops.block_bits format / 8) * ops.block_width format ∧
      v.last_element =
        stObj.BufferOffset / (ops.block_bits format / 8) * ops.block_width format +
          (min (pt.width0 - stObj.BufferOffset) (intCastU32 stObj.BufferSize) /
              (ops.block_bits format / 8) * ops.block_width format - 1)) := by
  unfold st_create_texture_sampler_view_from_stobj u_sampler_view_default_template
  dsimp only
  rw [if_pos hbuf]
  by_cases h1 : stObj.BufferOffset ≥ pt.width0
  · rw [if_pos h1]
    dsimp only
    constructor
    · simp [h1]
    · intro v hv
      simp at hv
  · rw [if_neg h1]
    by_cases h2 : min (pt.width0 - stObj.BufferOffset) (intCastU32 stObj.BufferSize) /
        (ops.block_bits format / 8) * ops.block_width format = 0
    · rw [if_pos h2]
      dsimp only
      constructor
      · simp [h2]
      · intro v hv
        simp at hv
    · rw [if_neg h2]
      dsimp only [create_sampler_view]
      constructor
      · simp [h1, h2]
      · intro v hv
        obtain rfl : _ = v := Option.some.inj hv
        exact ⟨rfl, rfl⟩

/-- A buffer-backed texture state with BaseLevel 2: the view built by
the buffer path leaves the u.tex descriptor at its template defaults,
so the cache's comparison (which always reads the u.tex fields) sees a
mismatch on the next call. -/
def cexBufBase : GLTexBase :=
  { Target := GL_TEXTURE_BUFFER, DepthMode := GL_LUMINANCE, _Swizzle := SWIZZLE_XYZW
    MinLevel := 0, BaseLevel := 2, _MaxLevel := 0, NumLevels := 1
    MinLayer := 0, NumLayers := 1, Immutable := false, StencilSampling := false
    BufferOffset := 0, BufferSize := 32, baseFormat := GL_RGBA
    firstImageInternalFormat := 0, firstImageBaseFormat := 0 }

def cexBufPt : PipeResource :=
  { target := PipeTarget.buffer, format := 1, width0 := 64, last_level := 0
    array_size := 1 }

/-- Counterexample for C4 as stated (for every texture object state):
for this buffer-backed texture, the second call with identical inputs
releases the cached entry and allocates a fresh view — the returned
instance differs and the allocation counter advances from 1 to 2. -/
theorem sampler_view_cache_buffer_cex :
    (st_get_texture_sampler_view_from_stobj simpleFormatOps demoStCtx
        (some { base := cexBufBase, pt := some cexBufPt }) 1 120
        (st_get_texture_sampler_view_from_stobj simpleFormatOps demoStCtx
          (some { base := cexBufBase, pt := some cexBufPt }) 1 120
          { slot := none, alloc := 0 }).2).1 ≠
      (st_get_texture_sampler_view_from_stobj simpleFormatOps demoStCtx
        (some { base := cexBufBase, pt := some cexBufPt }) 1 120
        { slot := none, alloc := 0 }).1 ∧
    (st_get_texture_sampler_view_from_stobj simpleFormatOps demoStCtx
        (some { base := cexBufBase, pt := some cexBufPt }) 1 120
        (st_get_texture_sampler_view_from_stobj simpleFormatOps demoStCtx
          (some { base := cexBufBase, pt := some cexBufPt }) 1 120
          { slot := none, alloc := 0 }).2).2.alloc = 2 ∧
    (st_get_texture_sampler_view_from_stobj simpleFormatOps demoStCtx
        (some { base := cexBufBase, pt := some cexBufPt }) 1 120
        { slot := none, alloc := 0 }).2.alloc = 1 := by decide

/-- The view built for the demo buffer texture (offset 0, size 32,
4-byte blocks of width 1): elements [0, 7]. -/
def demoBufView : PipeSamplerView :=
  { context := 0, id := 0, format := 1, target := PipeTarget.buffer
    first_level := 0, last_level := 0, first_layer := 0, last_layer := 0
    first_element := 0, last_element := 7
    swizzle_r := 0, swizzle_g := 1, swizzle_b := 2, swizzle_a := 3 }

/-- Witness for C8, evaluated on the demo buffer texture. -/
theorem buffer_sampler_view_element_range_witness :
    demoBufView.first_element = 0 ∧ demoBufView.last_element = 7 := by
  have h := (buffer_sampler_view_element_range simpleFormatOps demoStCtx cexBufBase
    cexBufPt 1 120 0 rfl (by decide)).2 demoBufView (by decide)
  simpa using h
